import Mathlib

/-!
Verification of the Diagnostic Context Builder of mautic-fix-db-ai
(src/index.ts, src/db.ts), shallowly embedded in Lean 4.

Rows returned by the MySQL wrapper are modelled as association lists from
field names to string-rendered values; the pooled query handle is modelled
as an oracle mapping each SQL text (and bound-parameter list) to a result.
-/

namespace MauticFix

/-- A result row (RowDataPacket): field name to string-rendered value. -/
abbrev Row := List (String × String)

/-- Field access `row.field` on a result row (missing fields default to ""). -/
def rowGet (r : Row) (k : String) : String :=
  match r.find? (fun p => p.1 == k) with
  | some p => p.2
  | none => ""

/-- The backtick character used by `escapeIdentifier`. -/
def identQuoteChar : Char := '\x60'

/-- The single-quote character used by `escapeLiteral`. -/
def literalQuoteChar : Char := '\x27'

/-- Global single-character replacement by a doubled character: the
character-level meaning of `.replace(/q/g, "qq")` in the escapers. -/
def doubleQuoteChar (q : Char) : List Char → List Char
  | [] => []
  | c :: cs => if c = q then q :: q :: doubleQuoteChar q cs else c :: doubleQuoteChar q cs

/-- `escapeIdentifier` from src/index.ts line 52: wraps in backticks and
doubles every embedded backtick. -/
def escapeIdentifier (identifier : String) : String :=
  "\x60" ++ String.mk (doubleQuoteChar identQuoteChar identifier.data) ++ "\x60"

/-- `escapeLiteral` from src/index.ts line 56: wraps in single quotes and
doubles every embedded single quote. -/
def escapeLiteral (str : String) : String :=
  "\x27" ++ String.mk (doubleQuoteChar literalQuoteChar str.data) ++ "\x27"

/-- Every occurrence of `q` in the list is escaped, i.e. occurs as part of
an immediately adjacent pair `q q`. -/
def pairedRuns (q : Char) : List Char → Bool
  | [] => true
  | c :: cs =>
    if c = q then
      match cs with
      | [] => false
      | c2 :: cs2 => decide (c2 = q) && pairedRuns q cs2
    else pairedRuns q cs

/-! ## The Schema Inspector queries and the query-execution oracle -/

/-- Which Schema Inspector operation issued a query (instrumentation tag). -/
inductive OpKind
  | findConstraint
  | serverVersion
  | describeTable
  | countRows
  | listIndexes
  | listForeignKeys
  | listConstraints
  | sampleRows
  deriving DecidableEq

/-- A query issued to the pooled handle: `query` is `mysql.queryRows` (inline
SQL text), `exec` is `mysql.executeRows` (SQL text plus bound parameters). -/
inductive Issued
  | query (op : OpKind) (sql : String)
  | exec (op : OpKind) (sql : String) (params : List String)
  deriving DecidableEq

/-- The operation tag of an issued query. -/
def issuedOp : Issued → OpKind
  | .query op _ => op
  | .exec op _ _ => op

/-- Whether an issued query used bound parameters (`executeRows`). -/
def usesBinding : Issued → Bool
  | .query _ _ => false
  | .exec _ _ _ => true

/-- Whether an issued query is table-scoped (structure, row count, index,
foreign-key, constraint, or sample-row query). -/
def isTableScoped (i : Issued) : Bool :=
  match issuedOp i with
  | .describeTable => true
  | .countRows => true
  | .listIndexes => true
  | .listForeignKeys => true
  | .listConstraints => true
  | .sampleRows => true
  | _ => false

/-- Does an issued query have the given operation tag? -/
def isOp (k : OpKind) (i : Issued) : Bool := decide (issuedOp i = k)

/-- Observable side effects of a run: issued queries, and lines written with
console.error while recovering from sample-fetch failures. -/
structure Trace where
  queries : List Issued
  errlog : List String
  deriving DecidableEq

/-- The empty trace at the start of a run. -/
def Trace.empty : Trace := ⟨[], []⟩

/-- Record one issued query. -/
def logQ (tr : Trace) (i : Issued) : Trace := { tr with queries := tr.queries ++ [i] }

/-- Record one console.error line. -/
def logErr (tr : Trace) (m : String) : Trace := { tr with errlog := tr.errlog ++ [m] }

/-- The pooled query handle (the MySQL wrapper of src/db.ts), modelled as an
oracle from SQL text (and bound parameters) to a result or an execution
error. -/
structure MySQLOracle where
  queryRows : String → Except String (List Row)
  executeRows : String → List String → Except String (List Row)

/-- Issue an inline-SQL query (`mysql.queryRows`), recording it. -/
def runQ (db : MySQLOracle) (op : OpKind) (q : String) (tr : Trace) :
    Except String (List Row) × Trace :=
  (db.queryRows q, logQ tr (.query op q))

/-- Issue a parameterized query (`mysql.executeRows`), recording it. -/
def runE (db : MySQLOracle) (op : OpKind) (q : String) (ps : List String) (tr : Trace) :
    Except String (List Row) × Trace :=
  (db.executeRows q ps, logQ tr (.exec op q ps))

/-- The constraint-lookup SQL of generatePrompt (src/index.ts lines 125-169);
the schema name and the constraint name are spliced through escapeLiteral. -/
def constraintQuery (database constraintName : String) : String :=
  "\n    SELECT \n      kcu.TABLE_NAME AS referencing_table,\n      kcu.COLUMN_NAME AS referencing_column,\n      kcu.REFERENCED_TABLE_NAME AS referenced_table,\n      kcu.REFERENCED_COLUMN_NAME AS referenced_column,\n      tc.CONSTRAINT_TYPE,\n      c.DATA_TYPE AS referencing_data_type,\n      c.CHARACTER_SET_NAME AS referencing_charset,\n      c.COLLATION_NAME AS referencing_collation,\n      c.COLUMN_TYPE AS referencing_column_type,\n      c.IS_NULLABLE AS referencing_is_nullable,\n      c.COLUMN_KEY AS referencing_key,\n      c.COLUMN_DEFAULT AS referencing_default,\n      c.EXTRA AS referencing_extra,\n      rc.DATA_TYPE AS referenced_data_type,\n      rc.CHARACTER_SET_NAME AS referenced_charset,\n      rc.COLLATION_NAME AS referenced_collation,\n      rc.COLUMN_TYPE AS referenced_column_type,\n      rc.IS_NULLABLE AS referenced_is_nullable,\n      rc.COLUMN_KEY AS referenced_key,\n      rc.COLUMN_DEFAULT AS referenced_default,\n      rc.EXTRA AS referenced_extra,\n      rc.TABLE_SCHEMA AS schema_name\n    FROM \n      INFORMATION_SCHEMA.KEY_COLUMN_USAGE kcu\n    JOIN \n      INFORMATION_SCHEMA.TABLE_CONSTRAINTS tc\n      ON kcu.CONSTRAINT_NAME = tc.CONSTRAINT_NAME\n      AND kcu.TABLE_SCHEMA = tc.TABLE_SCHEMA\n    JOIN\n      INFORMATION_SCHEMA.COLUMNS c\n      ON kcu.TABLE_SCHEMA = c.TABLE_SCHEMA\n      AND kcu.TABLE_NAME = c.TABLE_NAME\n      AND kcu.COLUMN_NAME = c.COLUMN_NAME\n    JOIN\n      INFORMATION_SCHEMA.COLUMNS rc\n      ON kcu.REFERENCED_TABLE_SCHEMA = rc.TABLE_SCHEMA\n      AND kcu.REFERENCED_TABLE_NAME = rc.TABLE_NAME\n      AND kcu.REFERENCED_COLUMN_NAME = rc.COLUMN_NAME\n    WHERE \n      kcu.TABLE_SCHEMA = " ++ escapeLiteral database ++ "\n      AND tc.CONSTRAINT_TYPE = \x27FOREIGN KEY\x27\n      AND kcu.CONSTRAINT_NAME = " ++ escapeLiteral constraintName ++ "\n  "

/-- The server-version query (src/index.ts line 177). -/
def versionQuery : String := "SELECT VERSION() as version"

/-- The structure-describe query (src/index.ts lines 183-184); the caller
passes the escapeIdentifier-escaped table name. -/
def describeQuery (t : String) : String := "DESCRIBE " ++ t

/-- The row-count query built inside getTableRowCount (line 187); the table
name is spliced verbatim. -/
def countQuery (t : String) : String := "SELECT COUNT(*) as count FROM " ++ t

/-- The index-listing query built inside getTableIndexes (line 195); the
table name is spliced verbatim. -/
def indexQuery (t : String) : String := "SHOW INDEX FROM " ++ t

/-- The sample-row query built inside getSampleData (line 233); the table
name and the limit are spliced verbatim. -/
def sampleQuery (t : String) (limit : Nat) : String :=
  "SELECT * FROM " ++ t ++ " LIMIT " ++ toString limit

/-- The default sample limit (the `limit = 5` default of getSampleData). -/
def defaultSampleLimit : Nat := 5

/-- The foreign-key listing SQL (lines 201-211): placeholders only; the
schema and both table names are passed as bound parameters. -/
def getForeignKeysQuery : String :=
  "\n    SELECT \n      TABLE_NAME, COLUMN_NAME, CONSTRAINT_NAME, \n      REFERENCED_TABLE_NAME, REFERENCED_COLUMN_NAME\n    FROM \n      INFORMATION_SCHEMA.KEY_COLUMN_USAGE\n    WHERE \n      TABLE_SCHEMA = ? \n      AND REFERENCED_TABLE_NAME IS NOT NULL\n      AND TABLE_NAME IN (?, ?)\n  "

/-- The constraint-listing SQL (lines 218-228): the schema name and both
table names are spliced through escapeLiteral. -/
def getConstraintsQuery (database t1 t2 : String) : String :=
  "\n    SELECT \n      TABLE_NAME,\n      CONSTRAINT_NAME, \n      CONSTRAINT_TYPE\n    FROM \n      INFORMATION_SCHEMA.TABLE_CONSTRAINTS\n    WHERE \n      TABLE_SCHEMA = " ++ escapeLiteral database ++ "\n      AND TABLE_NAME IN (" ++ escapeLiteral t1 ++ ", " ++ escapeLiteral t2 ++ ")\n  "

/-! ## JSON serialization (JSON.stringify(rows, null, 2) on string-valued rows) -/

/-- JSON string-character escaping (quote, backslash, newline). -/
def jsonEscapeChar (c : Char) : List Char :=
  if c = '\"' then ['\\', '\"']
  else if c = '\\' then ['\\', '\\']
  else if c = '\n' then ['\\', 'n']
  else [c]

/-- A JSON string token. -/
def jsonString (s : String) : String :=
  "\"" ++ String.mk (s.data.flatMap jsonEscapeChar) ++ "\""

/-- One `"key": "value"` field at the given indentation. -/
def jsonField (indent : String) (p : String × String) : String :=
  indent ++ jsonString p.1 ++ ": " ++ jsonString p.2

/-- One row object at the given indentation, pretty-printed with two-space
steps as JSON.stringify(row, null, 2) inside an array. -/
def jsonRow (indent : String) (r : Row) : String :=
  match r with
  | [] => indent ++ "\x7b\x7d"
  | _ =>
    indent ++ "\x7b\n" ++
      String.intercalate ",\n" (r.map (jsonField (indent ++ "  "))) ++
      "\n" ++ indent ++ "\x7d"

/-- JSON.stringify(rows, null, 2) for a list of rows. -/
def jsonRows (rows : List Row) : String :=
  match rows with
  | [] => "[]"
  | _ => "[\n" ++ String.intercalate ",\n" (rows.map (jsonRow "  ")) ++ "\n]"

/-! ## The Prompt Assembler (the template literal of lines 243-296) -/

/-- The closing paragraph introducing the remediation instructions. -/
def closingIntro : String :=
  "Based on this information, please provide step-by-step instructions to resolve the foreign key constraint issue. Consider the following:\n\n"

/-- The fixed block of ten numbered remediation instructions. -/
def instructionBlock : String :=
  "1. Analyze any data type mismatches between the referencing and referenced columns.\n2. Check for character set or collation incompatibilities.\n3. Provide SQL statements to drop and recreate the foreign key constraint with appropriate ON DELETE/UPDATE actions.\n4. Suggest necessary ALTER TABLE statements to modify column definitions if needed.\n5. Remember that before altering a column, you may need to drop the foreign key constraint, modify the column, and then recreate the constraint.\n6. Consider the impact on other constraints and foreign keys, especially recursive relationships, you\x27ll have to drop all the foreign keys that reference the table before altering the column.\n7. Ensure that the proposed changes maintain data integrity based on the sample data provided.\n8. If changes to multiple tables are required, suggest an order of operations that minimizes conflicts.\n9. Pay special attention to the fact that this might be a composite key involving multiple columns.\n10. Avoid dropping primary keys."

/-- The closing safety disclaimer after the instruction block. -/
def closingOutro : String :=
  "\n\nPlease format your response as a series of SQL statements with explanations for each step. If multiple approaches are possible, explain the pros and cons of each.\nAssume that all statements will be executed by a database administrator with appropriate permissions in a staging environment before being applied to the production database to prevent data loss or corruption, and that the production database is backed up regularly.\n"

/-- The template literal returned by generatePrompt (src/index.ts lines
243-296): a fixed concatenation of literal text and the gathered facts;
`t1`/`t2` are `constraintInfo[0].referencing_table` /
`constraintInfo[0].referenced_table`. -/
def promptTemplate (mauticError : String) (constraintInfo : List Row) (t1 t2 : String)
    (referencingStructure referencedStructure allForeignKeys constraints
      referencingSampleData referencedSampleData : List Row)
    (referencingTableCount referencedTableCount : String)
    (referencingIndexes referencedIndexes : List Row) (dbVersion : String) : String :=
  "\nYou are a MySQL expert tasked with resolving foreign key constraint issues during a Mautic database upgrade.\n\nMautic Error Message:\n" ++
  mauticError ++
  "\n\nForeign Key Constraint Information:\n" ++
  jsonRows constraintInfo ++
  "\n\nReferencing Table Structure (" ++ t1 ++ "):\n" ++
  jsonRows referencingStructure ++
  "\n\nReferenced Table Structure (" ++ t2 ++ "):\n" ++
  jsonRows referencedStructure ++
  "\n\nAll Foreign Keys:\n" ++
  jsonRows allForeignKeys ++
  "\n\nOther Constraints:\n" ++
  jsonRows constraints ++
  "\n\nSample Data for Referencing Table (" ++ t1 ++ "):\n" ++
  jsonRows referencingSampleData ++
  "\n\nSample Data for Referenced Table (" ++ t2 ++ "):\n" ++
  jsonRows referencedSampleData ++
  "\n\nTable Row Counts:\n- " ++ t1 ++ ": " ++ referencingTableCount ++ " rows\n- " ++
  t2 ++ ": " ++ referencedTableCount ++ " rows\n\nTable Indexes:\n- " ++
  t1 ++ " Indexes: " ++ jsonRows referencingIndexes ++ "\n- " ++
  t2 ++ " Indexes: " ++ jsonRows referencedIndexes ++
  "\n\nDatabase Version: " ++ dbVersion ++ "\nMautic Version: 3.2.5\n\n" ++
  closingIntro ++ instructionBlock ++ closingOutro

/-! ## The Context Builder (generatePrompt, src/index.ts lines 124-297) -/

/-- getTableRowCount (lines 186-189): row-count query with the table name
spliced verbatim; returns `result[0].count`. -/
def getTableRowCount (db : MySQLOracle) (tableName : String) (tr : Trace) :
    Except String String × Trace :=
  match runQ db .countRows (countQuery tableName) tr with
  | (.error e, tr) => (.error e, tr)
  | (.ok result, tr) => (.ok (rowGet (result.headD []) "count"), tr)

/-- getTableIndexes (lines 194-197): index query with the table name spliced
verbatim. -/
def getTableIndexes (db : MySQLOracle) (tableName : String) (tr : Trace) :
    Except String (List Row) × Trace :=
  runQ db .listIndexes (indexQuery tableName) tr

/-- getSampleData (lines 231-239): sample query with the table name spliced
verbatim; any execution error is caught, reported via console.error, and
turned into an empty row list, so this step never fails the run. -/
def getSampleData (db : MySQLOracle) (tableName : String) (limit : Nat) (tr : Trace) :
    List Row × Trace :=
  match runQ db .sampleRows (sampleQuery tableName limit) tr with
  | (.ok rows, tr) => (rows, tr)
  | (.error e, tr) =>
    ([], logErr tr ("Error fetching sample data from " ++ tableName ++ ": " ++ e))

/-- generatePrompt (lines 124-297): the Context Builder. Looks up the
constraint, fails when no row matches, then gathers the table-scoped facts
for the two tables of the first descriptor row and assembles the prompt.
State passing makes the issued-query trace explicit. -/
def generatePrompt (db : MySQLOracle) (database mauticError constraintName : String)
    (tr : Trace) : Except String String × Trace :=
  match runQ db .findConstraint (constraintQuery database constraintName) tr with
  | (.error e, tr) => (.error e, tr)
  | (.ok constraintInfo, tr) =>
  if constraintInfo.length = 0 then
    (.error ("No information found for constraint: " ++ constraintName), tr)
  else
  match runQ db .serverVersion versionQuery tr with
  | (.error e, tr) => (.error e, tr)
  | (.ok versionResult, tr) =>
  let dbVersion := rowGet (versionResult.headD []) "version"
  let r0 := constraintInfo.headD []
  let referencingTable := escapeIdentifier (rowGet r0 "referencing_table")
  let referencedTable := escapeIdentifier (rowGet r0 "referenced_table")
  match runQ db .describeTable (describeQuery referencingTable) tr with
  | (.error e, tr) => (.error e, tr)
  | (.ok referencingStructure, tr) =>
  match runQ db .describeTable (describeQuery referencedTable) tr with
  | (.error e, tr) => (.error e, tr)
  | (.ok referencedStructure, tr) =>
  match getTableRowCount db (rowGet r0 "referencing_table") tr with
  | (.error e, tr) => (.error e, tr)
  | (.ok referencingTableCount, tr) =>
  match getTableRowCount db (rowGet r0 "referenced_table") tr with
  | (.error e, tr) => (.error e, tr)
  | (.ok referencedTableCount, tr) =>
  match getTableIndexes db (rowGet r0 "referencing_table") tr with
  | (.error e, tr) => (.error e, tr)
  | (.ok referencingIndexes, tr) =>
  match getTableIndexes db (rowGet r0 "referenced_table") tr with
  | (.error e, tr) => (.error e, tr)
  | (.ok referencedIndexes, tr) =>
  match runE db .listForeignKeys getForeignKeysQuery
      [database, rowGet r0 "referencing_table", rowGet r0 "referenced_table"] tr with
  | (.error e, tr) => (.error e, tr)
  | (.ok allForeignKeys, tr) =>
  match runQ db .listConstraints
      (getConstraintsQuery database (rowGet r0 "referencing_table")
        (rowGet r0 "referenced_table")) tr with
  | (.error e, tr) => (.error e, tr)
  | (.ok constraints, tr) =>
  match getSampleData db (rowGet r0 "referencing_table") defaultSampleLimit tr with
  | (referencingSampleData, tr) =>
  match getSampleData db (rowGet r0 "referenced_table") defaultSampleLimit tr with
  | (referencedSampleData, tr) =>
  (.ok (promptTemplate mauticError constraintInfo
      (rowGet r0 "referencing_table") (rowGet r0 "referenced_table")
      referencingStructure referencedStructure allForeignKeys constraints
      referencingSampleData referencedSampleData
      referencingTableCount referencedTableCount
      referencingIndexes referencedIndexes dbVersion), tr)

/-! ## The process bootstrap (main, src/index.ts lines 71-122) -/

/-- Split a character list at every occurrence of `sep` (accumulator holds
the current piece reversed); models JS String.prototype.split with a
one-character separator. -/
def splitOnCharAux (sep : Char) : List Char → List Char → List (List Char)
  | [], acc => [acc.reverse]
  | c :: cs, acc =>
    if c = sep then acc.reverse :: splitOnCharAux sep cs []
    else splitOnCharAux sep cs (c :: acc)

/-- JS `s.split(sep)` for a one-character separator. -/
def jsSplit (sep : Char) (s : String) : List String :=
  (splitOnCharAux sep s.data []).map String.mk

/-- JS `s.startsWith(p)`. -/
def jsStartsWith (s p : String) : Bool := p.data.isPrefixOf s.data

/-- `args.find(arg => arg.startsWith('--error='))` (line 75). -/
def findErrorArg (args : List String) : Option String :=
  args.find? (fun arg => jsStartsWith arg "--error=")

/-- `errorArg ? errorArg.split('=')[1] : null` (line 76): the element between
the first and the second `=` of the matching argument. -/
def parsedError (args : List String) : Option String :=
  match findErrorArg args with
  | some arg => (jsSplit '=' arg)[1]?
  | none => none

/-- The results of the external collaborators of one run: the LLM
constraint-name extraction, the SSH connection, the tunnel stream, and the
database handle with the configured schema name. -/
structure PipelineEnv where
  extract : Except String String
  sshConnect : Except String Unit
  forward : Except String Unit
  db : MySQLOracle
  database : String

/-- Outcome of the try block of main: console lines written so far, the
caught error if any, and which resources were acquired when it ended. -/
structure TryOutcome where
  stdout : List String
  stderr : List String
  err : Option String
  mysqlAcquired : Bool
  sshAcquired : Bool

/-- Observable outcome of a whole run of main. -/
structure MainResult where
  stdout : List String
  stderr : List String
  exitCode : Nat
  mysqlAcquired : Bool
  sshAcquired : Bool
  mysqlEnds : Nat
  sshEnds : Nat
  deriving DecidableEq

/-- The try block of main (lines 86-117): extraction, SSH connect, tunnel,
generatePrompt; debug-mode progress lines go to stdout via console.log; a
caught error is printed to stderr as `Error: ...` in debug mode and to
stdout as `Error occurred: ...` otherwise. -/
def tryBody (env : PipelineEnv) (mauticError : String) (debugMode : Bool) : TryOutcome :=
  match env.extract with
  | .error e => ⟨[], [], some e, false, false⟩
  | .ok constraintName =>
  let out0 := if debugMode then ["Extracted constraint name: " ++ constraintName] else []
  match env.sshConnect with
  | .error e => ⟨out0, [], some e, false, true⟩
  | .ok _ =>
  let out1 := out0 ++ (if debugMode then ["SSH connection established"] else [])
  match env.forward with
  | .error e => ⟨out1, [], some e, false, true⟩
  | .ok _ =>
  let out2 := out1 ++
    (if debugMode then ["Successfully connected to the database over SSH.\n"] else [])
  match generatePrompt env.db env.database mauticError constraintName Trace.empty with
  | (.ok prompt, tr) => ⟨out2 ++ [prompt], tr.errlog, none, true, true⟩
  | (.error e, tr) => ⟨out2, tr.errlog, some e, true, true⟩

/-- main (lines 71-122): flag parsing and validation, the try block, the
catch block printing the error line, and the finally block releasing each
acquired resource once. The catch block does not call process.exit, so every
run that reaches the try block finishes with exit status 0. -/
def mainRun (args : List String) (env : PipelineEnv) : MainResult :=
  let debugMode := args.contains "--debug"
  let mauticError := parsedError args
  match mauticError with
  | none =>
    ⟨[], ["Error: Please provide the Mautic error message using --error=\"your error message\""],
      1, false, false, 0, 0⟩
  | some m =>
  if m = "" then
    ⟨[], ["Error: Please provide the Mautic error message using --error=\"your error message\""],
      1, false, false, 0, 0⟩
  else
  let o := tryBody env m debugMode
  let afterCatch : TryOutcome :=
    match o.err with
    | none => o
    | some e =>
      if debugMode then { o with stderr := o.stderr ++ ["Error: " ++ e] }
      else { o with stdout := o.stdout ++ ["Error occurred: " ++ e] }
  ⟨afterCatch.stdout, afterCatch.stderr, 0, o.mysqlAcquired, o.sshAcquired,
    if o.mysqlAcquired then 1 else 0, if o.sshAcquired then 1 else 0⟩

/-! ## Containment predicates for the assembled text -/

/-- `sub` occurs verbatim somewhere in `doc`. -/
def containsSub (doc sub : String) : Prop := ∃ p q, doc = p ++ (sub ++ q)

/-- The given pieces occur verbatim in `doc`, in this order, without
overlapping. -/
def containsInOrder : String → List String → Prop
  | _, [] => True
  | doc, p :: ps => ∃ a b, doc = a ++ (p ++ b) ∧ containsInOrder b ps

/-! ## Oracles and fixtures used by the theorems -/

/-- An oracle whose every query succeeds, with responses given by `resp`
(inline queries) and `respE` (parameterized queries). -/
def okOracle (resp : String → List Row) (respE : String → List String → List Row) :
    MySQLOracle :=
  ⟨fun q => .ok (resp q), fun q ps => .ok (respE q ps)⟩

/-- An oracle answering every query with an empty row list. -/
def emptyOracle : MySQLOracle := ⟨fun _ => .ok [], fun _ _ => .ok []⟩

/-- A constraint-descriptor row as in the end-to-end scenario of the spec. -/
def sampleRowA : Row :=
  [("referencing_table", "mtc_oauth2_accesstokens"), ("referencing_column", "client_id"),
   ("referenced_table", "mtc_oauth2_clients"), ("referenced_column", "id")]

/-- Inline-query responses that always return the scenario row. -/
def sampleResp : String → List Row := fun _ => [sampleRowA]

/-- Parameterized-query responses that always return no rows. -/
def emptyRespE : String → List String → List Row := fun _ _ => []

/-- A descriptor row whose table names contain a backtick. -/
def evilRow : Row := [("referencing_table", "a\x60b"), ("referenced_table", "c\x60d")]

/-- Inline-query responses that always return the backtick-named row. -/
def evilResp : String → List Row := fun _ => [evilRow]

/-- A descriptor row relating tables `ta` and `tb`. -/
def rowTA : Row := [("referencing_table", "ta"), ("referenced_table", "tb")]

/-- A pipeline whose constraint-name extraction fails. -/
def cexEnv0 : PipelineEnv := ⟨.error "boom", .ok (), .ok (), emptyOracle, "m"⟩

/-- A pipeline in which every step succeeds. -/
def cexEnv1 : PipelineEnv := ⟨.ok "FK_1", .ok (), .ok (), okOracle sampleResp emptyRespE, "m"⟩

/-- An oracle that fails exactly on the sample-row query for `ta` and
otherwise succeeds, answering every other inline query with the `ta`/`tb`
descriptor row. -/
def failingSampleDB : MySQLOracle :=
  ⟨fun q =>
    if q = sampleQuery "ta" defaultSampleLimit then .error "boom" else .ok [rowTA],
   fun _ _ => .ok []⟩

/-- The queries a fully successful run issues, in order, for schema `d`,
constraint name `n`, and first-descriptor-row tables `t1`, `t2`. -/
def okRunQueries (d n t1 t2 : String) : List Issued :=
  [ .query .findConstraint (constraintQuery d n),
    .query .serverVersion versionQuery,
    .query .describeTable (describeQuery (escapeIdentifier t1)),
    .query .describeTable (describeQuery (escapeIdentifier t2)),
    .query .countRows (countQuery t1),
    .query .countRows (countQuery t2),
    .query .listIndexes (indexQuery t1),
    .query .listIndexes (indexQuery t2),
    .exec .listForeignKeys getForeignKeysQuery [d, t1, t2],
    .query .listConstraints (getConstraintsQuery d t1 t2),
    .query .sampleRows (sampleQuery t1 defaultSampleLimit),
    .query .sampleRows (sampleQuery t2 defaultSampleLimit) ]

theorem generatePrompt_ok (resp : String → List Row)
    (respE : String → List String → List Row) (d err n : String) (r0 : Row)
    (rest : List Row) (h : resp (constraintQuery d n) = r0 :: rest) :
    generatePrompt (okOracle resp respE) d err n Trace.empty =
      (Except.ok (promptTemplate err (r0 :: rest)
          (rowGet r0 "referencing_table") (rowGet r0 "referenced_table")
          (resp (describeQuery (escapeIdentifier (rowGet r0 "referencing_table"))))
          (resp (describeQuery (escapeIdentifier (rowGet r0 "referenced_table"))))
          (respE getForeignKeysQuery
            [d, rowGet r0 "referencing_table", rowGet r0 "referenced_table"])
          (resp (getConstraintsQuery d (rowGet r0 "referencing_table")
            (rowGet r0 "referenced_table")))
          (resp (sampleQuery (rowGet r0 "referencing_table") defaultSampleLimit))
          (resp (sampleQuery (rowGet r0 "referenced_table") defaultSampleLimit))
          (rowGet ((resp (countQuery (rowGet r0 "referencing_table"))).headD []) "count")
          (rowGet ((resp (countQuery (rowGet r0 "referenced_table"))).headD []) "count")
          (resp (indexQuery (rowGet r0 "referencing_table")))
          (resp (indexQuery (rowGet r0 "referenced_table")))
          (rowGet ((resp versionQuery).headD []) "version")),
       ⟨okRunQueries d n (rowGet r0 "referencing_table") (rowGet r0 "referenced_table"),
        []⟩) := by
  simp [generatePrompt, runQ, runE, okOracle, getTableRowCount, getTableIndexes,
    getSampleData, logQ, Trace.empty, h, okRunQueries]

/-! ## String-append and containment helper lemmas -/

theorem strData_append (a b : String) : (a ++ b).data = a.data ++ b.data := rfl

theorem strAppend_assoc (a b c : String) : a ++ b ++ c = a ++ (b ++ c) :=
  congrArg String.mk (List.append_assoc a.data b.data c.data)

theorem strAppend_empty (s : String) : s ++ "" = s :=
  congrArg String.mk (List.append_nil s.data)

theorem containsSub_appL (a b sub : String) (h : containsSub b sub) :
    containsSub (a ++ b) sub := by
  obtain ⟨p, q, hb⟩ := h
  exact ⟨a ++ p, q, by rw [hb, strAppend_assoc]⟩

theorem containsSub_take1 (x r : String) : containsSub (x ++ r) x := ⟨"", r, rfl⟩

theorem strNil_append (s : String) : "" ++ s = s := rfl

theorem containsSub_take4 (x y z w r : String) :
    containsSub (x ++ (y ++ (z ++ (w ++ r)))) (x ++ (y ++ (z ++ w))) :=
  ⟨"", r, by simp [strAppend_assoc, strNil_append]⟩

theorem cio_head (m post : String) (ps : List String) (h : containsInOrder post ps) :
    containsInOrder (m ++ post) (m :: ps) := ⟨"", post, rfl, h⟩

theorem cio_last (m : String) : containsInOrder m [m] :=
  ⟨"", "", (strAppend_empty m).symm, trivial⟩

/-! ## Escaper lemmas -/

theorem doubleQuoteChar_paired (q : Char) (l : List Char) :
    pairedRuns q (doubleQuoteChar q l) = true := by
  induction l with
  | nil => rfl
  | cons c cs ih =>
    by_cases hc : c = q
    · simp [doubleQuoteChar, hc]
      rw [pairedRuns.eq_def]
      simp [ih]
    · simp [doubleQuoteChar, hc]
      rw [pairedRuns.eq_def]
      simp [hc, ih]

/-! ## Claim theorems -/

/-- Claim C2: `escapeIdentifier s` is a backtick, then `s` with each embedded
backtick doubled, then a closing backtick; `escapeLiteral s` is a single
quote, then `s` with each embedded single quote doubled, then a closing
single quote; both are total (they are Lean functions on all of `String`),
and the interior of each output contains no unescaped occurrence of the
respective quote character (every occurrence is part of an adjacent doubled
pair). -/
theorem escapersSpec (s : String) :
    (escapeIdentifier s).data =
      identQuoteChar :: (doubleQuoteChar identQuoteChar s.data ++ [identQuoteChar])
    ∧ (escapeLiteral s).data =
      literalQuoteChar :: (doubleQuoteChar literalQuoteChar s.data ++ [literalQuoteChar])
    ∧ pairedRuns identQuoteChar (doubleQuoteChar identQuoteChar s.data) = true
    ∧ pairedRuns literalQuoteChar (doubleQuoteChar literalQuoteChar s.data) = true := by
  refine ⟨?_, ?_, doubleQuoteChar_paired _ _, doubleQuoteChar_paired _ _⟩
  · simp [escapeIdentifier, strData_append, identQuoteChar]
  · simp [escapeLiteral, strData_append, literalQuoteChar]

/-- Claim C3: when the constraint lookup returns zero rows, the run fails
with the `No information found for constraint: <name>` error (the message
carries the attempted name), and the only query ever issued is the
constraint lookup itself — in particular no table-scoped query is issued. -/
theorem constraintNotFoundStopsRun (db : MySQLOracle) (d err n : String)
    (h : db.queryRows (constraintQuery d n) = .ok []) :
    generatePrompt db d err n Trace.empty =
      (.error ("No information found for constraint: " ++ n),
        ⟨[.query .findConstraint (constraintQuery d n)], []⟩)
    ∧ (∃ pre, "No information found for constraint: " ++ n = pre ++ n)
    ∧ ([Issued.query .findConstraint (constraintQuery d n)].filter isTableScoped) = [] := by
  refine ⟨?_, ⟨"No information found for constraint: ", rfl⟩, rfl⟩
  simp [generatePrompt, runQ, logQ, Trace.empty, h]

theorem constraintNotFoundStopsRunWitness :
    generatePrompt emptyOracle "mautic" "some error" "FK_404" Trace.empty =
      (.error ("No information found for constraint: " ++ "FK_404"),
        ⟨[.query .findConstraint (constraintQuery "mautic" "FK_404")], []⟩)
    ∧ (∃ pre, "No information found for constraint: " ++ "FK_404" = pre ++ "FK_404")
    ∧ ([Issued.query .findConstraint (constraintQuery "mautic" "FK_404")].filter
        isTableScoped) = [] :=
  constraintNotFoundStopsRun emptyOracle "mautic" "some error" "FK_404" rfl

/-- Claim C7: in a run whose queries all succeed and whose constraint lookup
returns a non-empty descriptor list, each table-scoped fact (structure, row
count, indexes, sample rows) is fetched exactly once for each of the two
tables named in the first descriptor row — independently of how many further
descriptor rows a composite constraint contributes. -/
theorem tableScopedFactsFetchedOncePerTable (resp : String → List Row)
    (respE : String → List String → List Row) (d err n : String) (r0 : Row)
    (rest : List Row) (h : resp (constraintQuery d n) = r0 :: rest) :
    ((generatePrompt (okOracle resp respE) d err n Trace.empty).2.queries.filter
        (isOp .describeTable)) =
      [.query .describeTable (describeQuery (escapeIdentifier (rowGet r0 "referencing_table"))),
       .query .describeTable (describeQuery (escapeIdentifier (rowGet r0 "referenced_table")))]
    ∧ ((generatePrompt (okOracle resp respE) d err n Trace.empty).2.queries.filter
        (isOp .countRows)) =
      [.query .countRows (countQuery (rowGet r0 "referencing_table")),
       .query .countRows (countQuery (rowGet r0 "referenced_table"))]
    ∧ ((generatePrompt (okOracle resp respE) d err n Trace.empty).2.queries.filter
        (isOp .listIndexes)) =
      [.query .listIndexes (indexQuery (rowGet r0 "referencing_table")),
       .query .listIndexes (indexQuery (rowGet r0 "referenced_table"))]
    ∧ ((generatePrompt (okOracle resp respE) d err n Trace.empty).2.queries.filter
        (isOp .sampleRows)) =
      [.query .sampleRows (sampleQuery (rowGet r0 "referencing_table") defaultSampleLimit),
       .query .sampleRows (sampleQuery (rowGet r0 "referenced_table") defaultSampleLimit)] := by
  rw [generatePrompt_ok resp respE d err n r0 rest h]
  exact ⟨rfl, rfl, rfl, rfl⟩

theorem tableScopedFactsFetchedOncePerTableWitness :
    ((generatePrompt (okOracle sampleResp emptyRespE) "mautic" "err" "FK_1"
        Trace.empty).2.queries.filter (isOp .describeTable)) =
      [.query .describeTable (describeQuery (escapeIdentifier "mtc_oauth2_accesstokens")),
       .query .describeTable (describeQuery (escapeIdentifier "mtc_oauth2_clients"))]
    ∧ ((generatePrompt (okOracle sampleResp emptyRespE) "mautic" "err" "FK_1"
        Trace.empty).2.queries.filter (isOp .countRows)) =
      [.query .countRows (countQuery "mtc_oauth2_accesstokens"),
       .query .countRows (countQuery "mtc_oauth2_clients")]
    ∧ ((generatePrompt (okOracle sampleResp emptyRespE) "mautic" "err" "FK_1"
        Trace.empty).2.queries.filter (isOp .listIndexes)) =
      [.query .listIndexes (indexQuery "mtc_oauth2_accesstokens"),
       .query .listIndexes (indexQuery "mtc_oauth2_clients")]
    ∧ ((generatePrompt (okOracle sampleResp emptyRespE) "mautic" "err" "FK_1"
        Trace.empty).2.queries.filter (isOp .sampleRows)) =
      [.query .sampleRows (sampleQuery "mtc_oauth2_accesstokens" defaultSampleLimit),
       .query .sampleRows (sampleQuery "mtc_oauth2_clients" defaultSampleLimit)] :=
  tableScopedFactsFetchedOncePerTable sampleResp emptyRespE "mautic" "err" "FK_1"
    sampleRowA [] rfl

/-- Counterexample to claim C6: in a concrete successful run, the set of
operations that pass dynamic values via bound parameters is exactly
`{listForeignKeys}` — one operation, not two — and the row-count query
splices its table name raw, neutralized by neither binding nor escaping
(here it differs from the escapeIdentifier form it would have had). -/
theorem bindingOpsCountCounterexample :
    (((generatePrompt (okOracle evilResp emptyRespE) "mautic" "err" "FK_e"
        Trace.empty).2.queries.filter usesBinding).map issuedOp) = [OpKind.listForeignKeys]
    ∧ (((generatePrompt (okOracle evilResp emptyRespE) "mautic" "err" "FK_e"
        Trace.empty).2.queries.filter usesBinding).map issuedOp).length ≠ 2
    ∧ ((generatePrompt (okOracle evilResp emptyRespE) "mautic" "err" "FK_e"
        Trace.empty).2.queries.filter (isOp .countRows)) =
      [.query .countRows ("SELECT COUNT(*) as count FROM a\x60b"),
       .query .countRows ("SELECT COUNT(*) as count FROM c\x60d")]
    ∧ "SELECT COUNT(*) as count FROM a\x60b" ≠
        countQuery (escapeIdentifier "a\x60b") := by
  rw [generatePrompt_ok evilResp emptyRespE "mautic" "err" "FK_e" evilRow [] rfl]
  exact ⟨rfl, by decide, rfl, by decide⟩

/-- Claim C6 as amended: exactly one of the Schema Inspector operations —
listForeignKeys — passes its dynamic values via bound parameters, binding the
schema name and both table names; every other query of the run is issued as
inline SQL text, and among those the row-count, index-listing and sample-row
queries splice the raw table names. -/
theorem singleBindingOperation (resp : String → List Row)
    (respE : String → List String → List Row) (d err n : String) (r0 : Row)
    (rest : List Row) (h : resp (constraintQuery d n) = r0 :: rest) :
    ((generatePrompt (okOracle resp respE) d err n Trace.empty).2.queries.filter
        usesBinding) =
      [.exec .listForeignKeys getForeignKeysQuery
        [d, rowGet r0 "referencing_table", rowGet r0 "referenced_table"]]
    ∧ ((generatePrompt (okOracle resp respE) d err n Trace.empty).2.queries.filter
        (fun i => ! usesBinding i)) =
      [.query .findConstraint (constraintQuery d n),
       .query .serverVersion versionQuery,
       .query .describeTable (describeQuery (escapeIdentifier (rowGet r0 "referencing_table"))),
       .query .describeTable (describeQuery (escapeIdentifier (rowGet r0 "referenced_table"))),
       .query .countRows (countQuery (rowGet r0 "referencing_table")),
       .query .countRows (countQuery (rowGet r0 "referenced_table")),
       .query .listIndexes (indexQuery (rowGet r0 "referencing_table")),
       .query .listIndexes (indexQuery (rowGet r0 "referenced_table")),
       .query .listConstraints (getConstraintsQuery d (rowGet r0 "referencing_table")
         (rowGet r0 "referenced_table")),
       .query .sampleRows (sampleQuery (rowGet r0 "referencing_table") defaultSampleLimit),
       .query .sampleRows (sampleQuery (rowGet r0 "referenced_table") defaultSampleLimit)] := by
  rw [generatePrompt_ok resp respE d err n r0 rest h]
  exact ⟨rfl, rfl⟩

theorem singleBindingOperationWitness :
    ((generatePrompt (okOracle sampleResp emptyRespE) "mautic" "err2" "FK_2"
        Trace.empty).2.queries.filter usesBinding) =
      [.exec .listForeignKeys getForeignKeysQuery
        ["mautic", "mtc_oauth2_accesstokens", "mtc_oauth2_clients"]]
    ∧ ((generatePrompt (okOracle sampleResp emptyRespE) "mautic" "err2" "FK_2"
        Trace.empty).2.queries.filter (fun i => ! usesBinding i)) =
      [.query .findConstraint (constraintQuery "mautic" "FK_2"),
       .query .serverVersion versionQuery,
       .query .describeTable (describeQuery (escapeIdentifier "mtc_oauth2_accesstokens")),
       .query .describeTable (describeQuery (escapeIdentifier "mtc_oauth2_clients")),
       .query .countRows (countQuery "mtc_oauth2_accesstokens"),
       .query .countRows (countQuery "mtc_oauth2_clients"),
       .query .listIndexes (indexQuery "mtc_oauth2_accesstokens"),
       .query .listIndexes (indexQuery "mtc_oauth2_clients"),
       .query .listConstraints (getConstraintsQuery "mautic" "mtc_oauth2_accesstokens"
         "mtc_oauth2_clients"),
       .query .sampleRows (sampleQuery "mtc_oauth2_accesstokens" defaultSampleLimit),
       .query .sampleRows (sampleQuery "mtc_oauth2_clients" defaultSampleLimit)] :=
  singleBindingOperation sampleResp emptyRespE "mautic" "err2" "FK_2" sampleRowA [] rfl

/-- Claim C1, evaluated at its failing input (a descriptor row whose table
names contain a backtick): the row-count, index-listing and sample-row
queries splice the table names raw — they differ from the escapeIdentifier
forms the claim asserts — while the structure-describe queries do pass the
names through escapeIdentifier. -/
theorem rawTableNameSplicedUnescaped :
    ((generatePrompt (okOracle evilResp emptyRespE) "mautic" "err" "FK_raw"
        Trace.empty).2.queries.filter (isOp .countRows)) =
      [.query .countRows ("SELECT COUNT(*) as count FROM a\x60b"),
       .query .countRows ("SELECT COUNT(*) as count FROM c\x60d")]
    ∧ ((generatePrompt (okOracle evilResp emptyRespE) "mautic" "err" "FK_raw"
        Trace.empty).2.queries.filter (isOp .listIndexes)) =
      [.query .listIndexes ("SHOW INDEX FROM a\x60b"),
       .query .listIndexes ("SHOW INDEX FROM c\x60d")]
    ∧ ((generatePrompt (okOracle evilResp emptyRespE) "mautic" "err" "FK_raw"
        Trace.empty).2.queries.filter (isOp .sampleRows)) =
      [.query .sampleRows ("SELECT * FROM a\x60b LIMIT 5"),
       .query .sampleRows ("SELECT * FROM c\x60d LIMIT 5")]
    ∧ ((generatePrompt (okOracle evilResp emptyRespE) "mautic" "err" "FK_raw"
        Trace.empty).2.queries.filter (isOp .describeTable)) =
      [.query .describeTable ("DESCRIBE \x60a\x60\x60b\x60"),
       .query .describeTable ("DESCRIBE \x60c\x60\x60d\x60")]
    ∧ "SELECT COUNT(*) as count FROM a\x60b" ≠ countQuery (escapeIdentifier "a\x60b")
    ∧ "SHOW INDEX FROM a\x60b" ≠ indexQuery (escapeIdentifier "a\x60b")
    ∧ "SELECT * FROM a\x60b LIMIT 5" ≠
        sampleQuery (escapeIdentifier "a\x60b") defaultSampleLimit := by
  rw [generatePrompt_ok evilResp emptyRespE "mautic" "err" "FK_raw" evilRow [] rfl]
  exact ⟨rfl, rfl, rfl, rfl, by decide, by decide, by decide⟩

set_option maxRecDepth 8000 in
/-- Claim C4: for every DiagnosticContext (error text, descriptor rows, table
names, structures, foreign keys, constraints, samples, counts, indexes,
version), the assembled document is the fixed template: it contains, in this
fixed order, the error text verbatim, the JSON of all descriptor rows, both
table structures, the foreign-key and constraint lists, both sample sets,
both row counts, both index listings, the database version, the fixed
product-version literal `3.2.5`, and the closing ten-instruction block; the
template never branches on the content of the facts. -/
theorem promptTemplateFixedOrder (err : String) (ci : List Row) (t1 t2 : String)
    (s1 s2 fk cs sd1 sd2 : List Row) (c1 c2 : String) (i1 i2 : List Row) (v : String) :
    containsInOrder (promptTemplate err ci t1 t2 s1 s2 fk cs sd1 sd2 c1 c2 i1 i2 v)
      ["\nYou are a MySQL expert tasked with resolving foreign key constraint issues during a Mautic database upgrade.\n\nMautic Error Message:\n",
       err,
       "\n\nForeign Key Constraint Information:\n", jsonRows ci,
       "\n\nReferencing Table Structure (", t1, "):\n", jsonRows s1,
       "\n\nReferenced Table Structure (", t2, "):\n", jsonRows s2,
       "\n\nAll Foreign Keys:\n", jsonRows fk,
       "\n\nOther Constraints:\n", jsonRows cs,
       "\n\nSample Data for Referencing Table (", t1, "):\n", jsonRows sd1,
       "\n\nSample Data for Referenced Table (", t2, "):\n", jsonRows sd2,
       "\n\nTable Row Counts:\n- ", t1, ": ", c1, " rows\n- ", t2, ": ", c2,
       " rows\n\nTable Indexes:\n- ", t1, " Indexes: ", jsonRows i1, "\n- ", t2,
       " Indexes: ", jsonRows i2,
       "\n\nDatabase Version: ", v, "\nMautic Version: 3.2.5\n\n",
       closingIntro, instructionBlock, closingOutro]
    ∧ containsSub (promptTemplate err ci t1 t2 s1 s2 fk cs sd1 sd2 c1 c2 i1 i2 v)
        "Mautic Version: 3.2.5"
    ∧ containsSub (promptTemplate err ci t1 t2 s1 s2 fk cs sd1 sd2 c1 c2 i1 i2 v)
        instructionBlock := by
  refine ⟨?_, ?_, ?_⟩
  · simp only [promptTemplate, strAppend_assoc]
    repeat (first | exact cio_last _ | refine cio_head _ _ _ ?_)
  · simp only [promptTemplate, strAppend_assoc]
    rw [show ("\nMautic Version: 3.2.5\n\n" : String) =
        "\n" ++ ("Mautic Version: 3.2.5" ++ "\n\n") from rfl]
    simp only [strAppend_assoc]
    repeat (first | exact containsSub_take1 _ _ | refine containsSub_appL _ _ _ ?_)
  · simp only [promptTemplate, strAppend_assoc]
    repeat (first | exact containsSub_take1 _ _ | refine containsSub_appL _ _ _ ?_)

/-- Execution lemma: a run in which every fact query succeeds except the
sample-row query for the referencing table, which fails with `e` (and the
referenced-table sample succeeds), still produces the full prompt, with an
empty referencing sample list and the failure reported on the error log. -/
theorem generatePrompt_sampleFail (db : MySQLOracle) (d err n e : String) (r0 : Row)
    (rest vr s1 s2 c1 c2 i1 i2 fk cs sd2 : List Row)
    (h1 : db.queryRows (constraintQuery d n) = .ok (r0 :: rest))
    (h2 : db.queryRows versionQuery = .ok vr)
    (h3 : db.queryRows (describeQuery (escapeIdentifier (rowGet r0 "referencing_table"))) =
      .ok s1)
    (h4 : db.queryRows (describeQuery (escapeIdentifier (rowGet r0 "referenced_table"))) =
      .ok s2)
    (h5 : db.queryRows (countQuery (rowGet r0 "referencing_table")) = .ok c1)
    (h6 : db.queryRows (countQuery (rowGet r0 "referenced_table")) = .ok c2)
    (h7 : db.queryRows (indexQuery (rowGet r0 "referencing_table")) = .ok i1)
    (h8 : db.queryRows (indexQuery (rowGet r0 "referenced_table")) = .ok i2)
    (h9 : db.executeRows getForeignKeysQuery
      [d, rowGet r0 "referencing_table", rowGet r0 "referenced_table"] = .ok fk)
    (h10 : db.queryRows (getConstraintsQuery d (rowGet r0 "referencing_table")
      (rowGet r0 "referenced_table")) = .ok cs)
    (hs : db.queryRows (sampleQuery (rowGet r0 "referencing_table") defaultSampleLimit) =
      .error e)
    (hs2 : db.queryRows (sampleQuery (rowGet r0 "referenced_table") defaultSampleLimit) =
      .ok sd2) :
    generatePrompt db d err n Trace.empty =
      (Except.ok (promptTemplate err (r0 :: rest)
          (rowGet r0 "referencing_table") (rowGet r0 "referenced_table")
          s1 s2 fk cs [] sd2
          (rowGet (c1.headD []) "count") (rowGet (c2.headD []) "count") i1 i2
          (rowGet (vr.headD []) "version")),
       ⟨okRunQueries d n (rowGet r0 "referencing_table") (rowGet r0 "referenced_table"),
        ["Error fetching sample data from " ++ rowGet r0 "referencing_table" ++ ": " ++ e]⟩) := by
  simp [generatePrompt, runQ, runE, getTableRowCount, getTableIndexes, getSampleData,
    logQ, logErr, Trace.empty, h1, h2, h3, h4, h5, h6, h7, h8, h9, h10, hs, hs2,
    okRunQueries]

set_option maxRecDepth 8000 in
/-- Claim C5: getSampleData never propagates a sample-query failure — it
records the console.error report and returns the empty row list; when the
database honours the LIMIT clause (returns a prefix of at most the default
limit of 5 rows) the result has at most 5 rows; and a run whose only failure
is the referencing-table sample query still succeeds, produces a prompt whose
referencing-table sample section is the empty list `[]`, and carries the
report on the error log. -/
theorem sampleFetchFailureRecovered :
    (∀ (db : MySQLOracle) (t e : String) (lim : Nat) (tr : Trace),
      db.queryRows (sampleQuery t lim) = .error e →
      getSampleData db t lim tr =
        ([], logErr (logQ tr (.query .sampleRows (sampleQuery t lim)))
          ("Error fetching sample data from " ++ t ++ ": " ++ e)))
    ∧ (∀ (db : MySQLOracle) (t : String) (rows : List Row) (tr : Trace),
      db.queryRows (sampleQuery t defaultSampleLimit) =
        .ok (rows.take defaultSampleLimit) →
      (getSampleData db t defaultSampleLimit tr).1.length ≤ defaultSampleLimit)
    ∧ (∀ (db : MySQLOracle) (d err n e : String) (r0 : Row)
        (rest vr s1 s2 c1 c2 i1 i2 fk cs sd2 : List Row),
      db.queryRows (constraintQuery d n) = .ok (r0 :: rest) →
      db.queryRows versionQuery = .ok vr →
      db.queryRows (describeQuery (escapeIdentifier (rowGet r0 "referencing_table"))) =
        .ok s1 →
      db.queryRows (describeQuery (escapeIdentifier (rowGet r0 "referenced_table"))) =
        .ok s2 →
      db.queryRows (countQuery (rowGet r0 "referencing_table")) = .ok c1 →
      db.queryRows (countQuery (rowGet r0 "referenced_table")) = .ok c2 →
      db.queryRows (indexQuery (rowGet r0 "referencing_table")) = .ok i1 →
      db.queryRows (indexQuery (rowGet r0 "referenced_table")) = .ok i2 →
      db.executeRows getForeignKeysQuery
        [d, rowGet r0 "referencing_table", rowGet r0 "referenced_table"] = .ok fk →
      db.queryRows (getConstraintsQuery d (rowGet r0 "referencing_table")
        (rowGet r0 "referenced_table")) = .ok cs →
      db.queryRows (sampleQuery (rowGet r0 "referencing_table") defaultSampleLimit) =
        .error e →
      db.queryRows (sampleQuery (rowGet r0 "referenced_table") defaultSampleLimit) =
        .ok sd2 →
      (∃ p, (generatePrompt db d err n Trace.empty).1 = .ok p
        ∧ containsSub p ("Sample Data for Referencing Table (" ++
            (rowGet r0 "referencing_table" ++ ("):\n" ++ "[]"))))
      ∧ ("Error fetching sample data from " ++ rowGet r0 "referencing_table" ++ ": " ++ e)
          ∈ (generatePrompt db d err n Trace.empty).2.errlog) := by
  refine ⟨?_, ?_, ?_⟩
  · intro db t e lim tr h
    simp [getSampleData, runQ, h]
  · intro db t rows tr h
    simp only [getSampleData, runQ, h]
    simp [List.length_take_le]
  · intro db d err n e r0 rest vr s1 s2 c1 c2 i1 i2 fk cs sd2 h1 h2 h3 h4 h5 h6 h7 h8 h9
      h10 hs hs2
    rw [generatePrompt_sampleFail db d err n e r0 rest vr s1 s2 c1 c2 i1 i2 fk cs sd2
      h1 h2 h3 h4 h5 h6 h7 h8 h9 h10 hs hs2]
    refine ⟨⟨_, rfl, ?_⟩, by simp⟩
    simp only [promptTemplate, strAppend_assoc]
    rw [show jsonRows ([] : List Row) = "[]" from rfl]
    rw [show ("\n\nSample Data for Referencing Table (" : String) =
        "\n\n" ++ "Sample Data for Referencing Table (" from rfl]
    simp only [strAppend_assoc]
    repeat (first | exact containsSub_take4 _ _ _ _ _ | refine containsSub_appL _ _ _ ?_)

set_option maxRecDepth 8000 in
theorem sampleFetchFailureRecoveredWitness :
    (getSampleData failingSampleDB "ta" defaultSampleLimit Trace.empty =
      ([], logErr (logQ Trace.empty (.query .sampleRows (sampleQuery "ta" defaultSampleLimit)))
        ("Error fetching sample data from " ++ "ta" ++ ": " ++ "boom")))
    ∧ ((getSampleData failingSampleDB "tb" defaultSampleLimit Trace.empty).1.length ≤
        defaultSampleLimit)
    ∧ (∃ p, (generatePrompt failingSampleDB "m" "err" "FK_1" Trace.empty).1 = .ok p
        ∧ containsSub p ("Sample Data for Referencing Table (" ++
            ("ta" ++ ("):\n" ++ "[]"))))
    ∧ ("Error fetching sample data from " ++ "ta" ++ ": " ++ "boom")
        ∈ (generatePrompt failingSampleDB "m" "err" "FK_1" Trace.empty).2.errlog :=
  ⟨sampleFetchFailureRecovered.1 failingSampleDB "ta" "boom" defaultSampleLimit
      Trace.empty rfl,
   sampleFetchFailureRecovered.2.1 failingSampleDB "tb" [rowTA] Trace.empty rfl,
   (sampleFetchFailureRecovered.2.2 failingSampleDB "m" "err" "FK_1" "boom" rowTA
      [] [rowTA] [rowTA] [rowTA] [rowTA] [rowTA] [rowTA] [rowTA] [] [rowTA] [rowTA]
      rfl rfl rfl rfl rfl rfl rfl rfl rfl rfl rfl rfl).1,
   (sampleFetchFailureRecovered.2.2 failingSampleDB "m" "err" "FK_1" "boom" rowTA
      [] [rowTA] [rowTA] [rowTA] [rowTA] [rowTA] [rowTA] [rowTA] [] [rowTA] [rowTA]
      rfl rfl rfl rfl rfl rfl rfl rfl rfl rfl rfl rfl).2⟩

/-- Claim C8: on every exit path of a run — usage error, extraction failure,
tunnel failure, constraint-lookup failure, fact-fetch failure, or success —
each acquired resource (the pooled connection, the SSH client) has its
release operation invoked exactly once by the end of the run, and a resource
that was never acquired is never released. -/
theorem resourcesReleasedOnce (args : List String) (env : PipelineEnv) :
    (mainRun args env).mysqlEnds = (if (mainRun args env).mysqlAcquired then 1 else 0)
    ∧ (mainRun args env).sshEnds = (if (mainRun args env).sshAcquired then 1 else 0) := by
  cases hp : parsedError args with
  | none => simp [mainRun, hp]
  | some m =>
    by_cases hm : m = ""
    · simp [mainRun, hp, hm]
    · simp [mainRun, hp, hm]

/-- Counterexample to claim C9: a failing run (extraction fails after flag
validation) prints its single error line but finishes with exit status 0,
not a nonzero status; and a successful debug-mode run prints three progress
lines before the prompt, so its stdout is not only the prompt text. -/
theorem failingRunExitCodeCounterexample :
    (mainRun ["--error=x"] cexEnv0).exitCode = 0
    ∧ (mainRun ["--error=x"] cexEnv0).stdout = ["Error occurred: boom"]
    ∧ (mainRun ["--error=x", "--debug"] cexEnv1).stdout.length = 4
    ∧ ¬ (mainRun ["--error=x", "--debug"] cexEnv1).stdout.length = 1 := by
  refine ⟨rfl, rfl, rfl, by decide⟩

/-- Claim C9 as amended: every run that passes flag validation finishes with
exit status 0, whether it fails or succeeds; a failing run prints a single
error line carrying the underlying failure detail — `Error: `-prefixed on
stderr in debug mode, `Error occurred: `-prefixed on stdout otherwise — and
a successful run with debug off prints only the assembled prompt to stdout
(sample-fetch reports, if any, go to stderr). -/
theorem runOutputBehavior (args : List String) (env : PipelineEnv) (m : String)
    (hm : parsedError args = some m) (hne : m ≠ "") :
    (mainRun args env).exitCode = 0
    ∧ (∀ e, env.extract = .error e →
        (if args.contains "--debug" then
          (mainRun args env).stdout = [] ∧ (mainRun args env).stderr = ["Error: " ++ e]
        else
          (mainRun args env).stdout = ["Error occurred: " ++ e]
            ∧ (mainRun args env).stderr = []))
    ∧ (∀ c p tr, env.extract = .ok c → env.sshConnect = .ok () → env.forward = .ok () →
        generatePrompt env.db env.database m c Trace.empty = (.ok p, tr) →
        args.contains "--debug" = false →
        (mainRun args env).stdout = [p] ∧ (mainRun args env).stderr = tr.errlog)
    ∧ (∀ c e tr, env.extract = .ok c → env.sshConnect = .ok () → env.forward = .ok () →
        generatePrompt env.db env.database m c Trace.empty = (.error e, tr) →
        args.contains "--debug" = false →
        (mainRun args env).stdout = ["Error occurred: " ++ e]
          ∧ (mainRun args env).stderr = tr.errlog) := by
  refine ⟨?_, ?_, ?_, ?_⟩
  · simp [mainRun, hm, hne]
  · intro e he
    cases hd : args.contains "--debug" <;> simp at hd <;>
      simp [mainRun, hm, hne, tryBody, he, hd]
  · intro c p tr he hs hf hg hd
    simp at hd
    simp [mainRun, hm, hne, tryBody, he, hs, hf, hg, hd]
  · intro c e tr he hs hf hg hd
    simp at hd
    simp [mainRun, hm, hne, tryBody, he, hs, hf, hg, hd]

theorem runOutputBehaviorWitness :
    (mainRun ["--error=x"] cexEnv0).exitCode = 0
    ∧ ((mainRun ["--error=x"] cexEnv0).stdout = ["Error occurred: " ++ "boom"]
        ∧ (mainRun ["--error=x"] cexEnv0).stderr = []) :=
  ⟨(runOutputBehavior ["--error=x"] cexEnv0 "x" rfl (by decide)).1,
   (runOutputBehavior ["--error=x"] cexEnv0 "x" rfl (by decide)).2.1 "boom" rfl⟩

/-! ## Claim C10: splitting lemmas for the error flag -/

theorem isPrefixOf_append (p t : List Char) : p.isPrefixOf (p ++ t) = true := by
  induction p with
  | nil => cases t <;> rfl
  | cons c cs ih => simp [ih]

theorem splitOnCharAux_no_sep (sep : Char) (a : List Char) (rest acc : List Char)
    (ha : sep ∉ a) :
    splitOnCharAux sep (a ++ sep :: rest) acc =
      (acc.reverse ++ a) :: splitOnCharAux sep rest [] := by
  induction a generalizing acc with
  | nil => simp [splitOnCharAux]
  | cons c cs ih =>
    have hc : ¬ c = sep := fun h => ha (by simp [h])
    simp only [List.cons_append, splitOnCharAux, if_neg hc, List.append_eq]
    rw [ih _ (fun h => ha (List.mem_cons_of_mem _ h))]
    simp

/-- Claim C10: when the value of the `--error=` flag itself contains an `=`,
main keeps only the portion between the first and the second `=` of the
argument (silently dropping the remainder), so the error text used downstream
differs from the text the operator supplied. -/
theorem errorFlagTruncatedAtSecondEq (a b : String) (ha : '=' ∉ a.data) :
    parsedError ["--error=" ++ a ++ "=" ++ b] = some a
    ∧ a ++ "=" ++ b ≠ a := by
  constructor
  · have hdata : ("--error=" ++ a ++ "=" ++ b).data =
        "--error".data ++ '=' :: (a.data ++ '=' :: b.data) := by
      rw [strData_append, strData_append, strData_append]
      rw [show ("--error=" : String).data = "--error".data ++ ['='] from rfl,
        show ("=" : String).data = ['='] from rfl]
      simp [List.append_assoc]
    have hdata2 : ("--error=" ++ a ++ "=" ++ b).data =
        "--error=".data ++ (a.data ++ '=' :: b.data) := by
      rw [hdata, show ("--error=" : String).data = "--error".data ++ ['='] from rfl]
      simp
    have hpre : jsStartsWith ("--error=" ++ a ++ "=" ++ b) "--error=" = true := by
      unfold jsStartsWith
      rw [hdata2]
      exact isPrefixOf_append _ _
    simp only [parsedError, findErrorArg, List.find?, hpre]
    simp only [jsSplit]
    rw [hdata, splitOnCharAux_no_sep '=' ("--error".data) _ [] (by decide),
      splitOnCharAux_no_sep '=' a.data _ [] ha]
    simp
  · intro hcontra
    have h2 := congrArg (fun s => s.data.length) hcontra
    simp [strData_append, List.length_append,
      show ("=" : String).data = ['='] from rfl] at h2

theorem errorFlagTruncatedAtSecondEqWitness :
    parsedError ["--error=" ++ "foo" ++ "=" ++ "bar"] = some "foo"
    ∧ "foo" ++ "=" ++ "bar" ≠ "foo" :=
  errorFlagTruncatedAtSecondEq "foo" "bar" (by decide)

end MauticFix
